import Mathlib

/-!
# DMXW — verification of the protocol-layer specification

A shallow embedding of the DMXW repository's protocol definitions
(`DMXWNet.h`, `DmxwDefs.h`, `TesterDefs.h`) together with models of the
behaviour those headers document: the serial-link frame codec, the
wireless send/retry loop, the channel-map registries, the IPC command
dispatcher, and the output-processor reboot handshake.

The repository's three source files are headers: they carry the constants,
enum/struct types and the behavioural documentation, but no function
bodies.  Wherever a definition embeds behaviour whose implementation is
not in the sources, its doc comment starts with `Modelled from the spec:`
and names what is missing; such definitions follow the specification text
word by word.
-/

namespace DMXW

/-! ## Constants from TesterDefs.h -/

/-- TesterDefs.h: number of onboard test channels. -/
def NUM_CHANS_ONBOARD : Nat := 5

/-- TesterDefs.h: number of valid DMXW channels. -/
def NUM_CHAN_DMXW : Nat := 48

/-- TesterDefs.h: bound on the serial receive buffer. -/
def MAX_SERIAL_BUF_LEN : Nat := 64

/-- TesterDefs.h: escape character `0xFD` (253). -/
def CHAR_ESC : Nat := 253

/-- TesterDefs.h: start-of-text character `0xFE` (254). -/
def CHAR_STX : Nat := 254

/-- TesterDefs.h: end-of-text character `0xFF` (255). -/
def CHAR_ETX : Nat := 255

/-- TesterDefs.h: `TSTCMD_SELECT` selectCmd value: add channels. -/
def SELECT_ADD : Nat := 1

/-- TesterDefs.h: `TSTCMD_SELECT` selectCmd value: remove channels. -/
def SELECT_DEL : Nat := 2

/-- TesterDefs.h: `TSTCMD_SELECT` selectCmd value: clear the selection. -/
def SELECT_CLR : Nat := 3

/-- TesterDefs.h line 33 (first `TSTCMD_ACK` block): success. -/
def TSTACK_OK : Nat := 0

/-- TesterDefs.h line 34 (first `TSTCMD_ACK` block): output processor has
been reset.  This code appears only in the first block. -/
def TSTACK_OUTREBOOT : Nat := 1

/-- TesterDefs.h line 35 (first `TSTCMD_ACK` block): bad parameter. -/
def TSTACK_BAD_PARM_first : Nat := 2

/-- TesterDefs.h line 36 (first `TSTCMD_ACK` block): bad state. -/
def TSTACK_BAD_STATE_first : Nat := 3

/-- TesterDefs.h line 38 (first `TSTCMD_ACK` block): corrupted command. -/
def TSTACK_CORRUPTED_first : Nat := 4

/-- TesterDefs.h line 42 (second `TSTCMD_ACK` block, textually later and
therefore the effective C macro value): bad parameter. -/
def TSTACK_BAD_PARM : Nat := 1

/-- TesterDefs.h line 43 (second `TSTCMD_ACK` block, effective): bad state. -/
def TSTACK_BAD_STATE : Nat := 2

/-- TesterDefs.h line 45 (second `TSTCMD_ACK` block, effective): corrupted. -/
def TSTACK_CORRUPTED : Nat := 3

/-! ## Constants from DMXWNet.h -/

/-- DMXWNet.h: the gateway's node id. -/
def GATEWAYID : Nat := 1

/-- DMXWNet.h: designated node id for broadcasts. -/
def BROADCASTID : Nat := 255

/-- DMXWNet.h: max number of milliseconds to wait for an ack. -/
def ACK_WAIT_TIME : Nat := 50

/-- DMXWNet.h: number of additional TX attempts when an ACK is needed. -/
def TX_NUM_RETRIES : Nat := 2

/-- DMXWNet.h: number of DMX-512 channels. -/
def MAX_DMX512_CHANS : Nat := 512

/-- DMXWNet.h: number of DMXW wireless channels. -/
def MAX_DMXW_CHANS : Nat := 48

/-- DMXWNet.h: declared node capacity. -/
def MAX_NODES : Nat := 20

/-- DMXWNet.h: ports per node. -/
def MAX_PORTS : Nat := 16

/-- DMXWNet.h: the "no node" identity. -/
def NODEID_UNDEF : Nat := 0

/-- DMXWNet.h: maximum node identity, `MAX_DMXW_CHANS + 1`. -/
def NODEID_MAX : Nat := MAX_DMXW_CHANS + 1

/-- DMXWNet.h ACK code: no error. -/
def ACK_OK : Nat := 0

/-- DMXWNet.h ACK code: command unsupported. -/
def ACK_ECMD : Nat := 1

/-- DMXWNet.h ACK code: timed out waiting for ACK. -/
def ACK_ETIME : Nat := 2

/-- DMXWNet.h ACK code: DMXW channel access error. -/
def ACK_EDMXW : Nat := 3

/-- DMXWNet.h ACK code: port access error. -/
def ACK_EPORT : Nat := 4

/-- DMXWNet.h ACK code: unspecified error. -/
def ACK_ERR : Nat := 254

/-- DMXWNet.h ACK code: undefined ACK value. -/
def ACK_NULL : Nat := 255

/-! ## FrameCodec

The IPC receiver states `IPC_SEEK .. IPC_PURGE` are declared in
TesterDefs.h (lines 47-54); the framing rules (STX pair, sequence byte,
escape table 253/254/255, ETX, CRC8) are documented at TesterDefs.h
lines 63-75.  The encoder and the per-byte receiver themselves are not in
the sources and are modelled from the spec (section 4.1). -/

/-- The receiver states of TesterDefs.h lines 47-54 (`IPC_SEEK` = 0 ..
`IPC_PURGE` = 6). -/
inductive IpcState
  | seek
  | seek2
  | seqnum
  | collect
  | esc
  | crc
  | purge
deriving DecidableEq, Repr

/-- The numeric state codes of TesterDefs.h lines 47-54. -/
def IpcState.code : IpcState → Nat
  | .seek => 0
  | .seek2 => 1
  | .seqnum => 2
  | .collect => 3
  | .esc => 4
  | .crc => 5
  | .purge => 6

/-- One CRC-8 byte step: xor the byte in, then eight shift-and-conditionally
xor rounds with polynomial `0x07`.  All arithmetic is mod 256. -/
def crc8Update (crc b : Nat) : Nat :=
  let step : Nat → Nat := fun c =>
    if 128 ≤ c then ((c * 2) ^^^ 7) % 256 else (c * 2) % 256
  step (step (step (step (step (step (step (step ((crc ^^^ b) % 256))))))))

/-- Modelled from the spec: the CRC8 algorithm is not given in the sources
(the spec lists its exact convention as an open question); modelled as the
standard CRC-8 with polynomial `0x07` and initial value 0, computed — per
the spec's checksum-coverage sentence — over the sequence number followed
by the unescaped logical payload bytes. -/
def crc8 (bytes : List Nat) : Nat :=
  bytes.foldl crc8Update 0

/-- The escape table of TesterDefs.h lines 69-73: a payload byte of 253,
254 or 255 is transmitted as the pair `CHAR_ESC, literal`; any other byte
is transmitted as itself. -/
def escapeByte (b : Nat) : List Nat :=
  if CHAR_ESC ≤ b then [CHAR_ESC, b] else [b]

/-- Escape every payload byte per the escape table. -/
def escapePayload (payload : List Nat) : List Nat :=
  payload.flatMap escapeByte

/-- Modelled from the spec: the frame encoder is not in the sources;
modelled from the frame layout of TesterDefs.h lines 63-65 and spec 4.1:
`STX STX SEQ <escaped-payload> ETX CRC8`, the CRC computed over the
sequence number and the unescaped payload. -/
def encode (seq : Nat) (payload : List Nat) : List Nat :=
  [CHAR_STX, CHAR_STX, seq] ++ escapePayload payload ++
    [CHAR_ETX, crc8 (seq :: payload)]

/-- The receiver's mutable state: its `IpcState`, the sequence byte of the
frame being collected, and the accumulated unescaped payload buffer. -/
structure CodecState where
  st : IpcState
  seq : Nat
  buf : List Nat
deriving DecidableEq, Repr

/-- The error kinds a feed step can report. -/
inductive ErrKind
  | checksumMismatch
  | overflow
  | framing
deriving DecidableEq, Repr

/-- The outcome of feeding one byte to the receiver. -/
inductive FeedResult
  | incomplete
  | frame (seq : Nat) (payload : List Nat)
  | error (kind : ErrKind)
deriving DecidableEq, Repr

/-- Modelled from the spec: the per-byte receiver is not in the sources;
modelled from the state machine of spec 4.1 over the `IPC_*` states of
TesterDefs.h lines 47-54.  `SEEK`/`SEEK2` find a consecutive STX pair;
`SEQNUM` consumes the (never escaped) sequence byte; `COLLECT` accumulates
payload bytes, with `ESC` consuming exactly one escaped literal, an
unescaped ETX moving to `CRC`, and an unescaped STX a framing error that
forces `PURGE`; `CRC` consumes the checksum byte and emits the frame or a
checksum-mismatch error; appending beyond `MAX_SERIAL_BUF_LEN` is an
overflow error that forces `PURGE`; `PURGE` discards bytes until an STX
restarts collection. -/
def feed (s : CodecState) (b : Nat) : CodecState × FeedResult :=
  match s.st with
  | .seek =>
      if b = CHAR_STX then ({ s with st := .seek2 }, .incomplete)
      else (s, .incomplete)
  | .seek2 =>
      if b = CHAR_STX then ({ s with st := .seqnum }, .incomplete)
      else ({ s with st := .seek }, .incomplete)
  | .seqnum =>
      (⟨.collect, b, []⟩, .incomplete)
  | .collect =>
      if b = CHAR_STX then (⟨.purge, s.seq, []⟩, .error .framing)
      else if b = CHAR_ESC then ({ s with st := .esc }, .incomplete)
      else if b = CHAR_ETX then ({ s with st := .crc }, .incomplete)
      else if MAX_SERIAL_BUF_LEN ≤ s.buf.length then
        (⟨.purge, s.seq, []⟩, .error .overflow)
      else ({ s with buf := s.buf ++ [b] }, .incomplete)
  | .esc =>
      if MAX_SERIAL_BUF_LEN ≤ s.buf.length then
        (⟨.purge, s.seq, []⟩, .error .overflow)
      else (⟨.collect, s.seq, s.buf ++ [b]⟩, .incomplete)
  | .crc =>
      if b = CHAR_STX then (⟨.purge, s.seq, []⟩, .error .framing)
      else if b = crc8 (s.seq :: s.buf) then
        (⟨.seek, s.seq, []⟩, .frame s.seq s.buf)
      else (⟨.seek, s.seq, []⟩, .error .checksumMismatch)
  | .purge =>
      if b = CHAR_STX then ({ s with st := .seek2 }, .incomplete)
      else (s, .incomplete)

/-- Feed a whole byte list, returning the final state and the per-byte
results in order. -/
def feedAll (s : CodecState) : List Nat → CodecState × List FeedResult
  | [] => (s, [])
  | b :: rest =>
      let p := feed s b
      let q := feedAll p.1 rest
      (q.1, p.2 :: q.2)

/-- The frame carried by one feed result, if any. -/
def framePart : FeedResult → Option (Nat × List Nat)
  | .frame q p => some (q, p)
  | _ => none

/-- The frames emitted while feeding `bytes` from state `s`. -/
def framesOf (s : CodecState) (bytes : List Nat) : List (Nat × List Nat) :=
  (feedAll s bytes).2.filterMap framePart

/-- The receiver's initial state. -/
def initState : CodecState := ⟨.seek, 0, []⟩

/-- Decode a byte list from the initial state: the list of frames emitted. -/
def decode (bytes : List Nat) : List (Nat × List Nat) :=
  framesOf initState bytes

/-! ## WirelessLinkProtocol: unicast send with acknowledgement retry

DMXWNet.h declares `ACK_WAIT_TIME` (50 ms), `TX_NUM_RETRIES` (2) and the
ACK code taxonomy; the send loop itself is not in the sources. -/

/-- Modelled from the spec: the blocking unicast send loop of
WirelessLinkProtocol is not in the sources (DMXWNet.h only declares
`ACK_WAIT_TIME`, `TX_NUM_RETRIES` and the ACK codes); modelled from spec
4.3.  `ackDelay i` is the environment: `some t` means the acknowledgement
of transmission attempt `i` arrives after `t` ms (within the wait window),
`none` that no acknowledgement arrives during attempt `i`'s window.  Each
failed attempt waits the full `ACK_WAIT_TIME`.  Returns (number of
transmission attempts performed, total ms waited, result ACK code). -/
def sendGo (ackDelay : Nat → Option Nat) (attempt waited : Nat) :
    Nat → Nat × Nat × Nat
  | 0 => (attempt, waited, ACK_ETIME)
  | n + 1 =>
      match ackDelay attempt with
      | some t => (attempt + 1, waited + min t ACK_WAIT_TIME, ACK_OK)
      | none => sendGo ackDelay (attempt + 1) (waited + ACK_WAIT_TIME) n

/-- Modelled from the spec: a unicast send requiring acknowledgement
performs an initial transmission plus up to `TX_NUM_RETRIES` retries. -/
def sendUnicast (ackDelay : Nat → Option Nat) : Nat × Nat × Nat :=
  sendGo ackDelay 0 0 (1 + TX_NUM_RETRIES)

/-! ## TestSessionStateMachine and CommandDispatcher

The enums `TestOutput_t`, `TestType_t`, `TestState_t` are TesterDefs.h
lines 177-197; the command set and its per-command behaviour are the
documented `TSTCMD_*` definitions at TesterDefs.h lines 76-174.  The
dispatcher body itself is not in the sources. -/

/-- `TestOutput_t` of TesterDefs.h lines 177-182. -/
inductive TestOutput
  | NO_OUTPUT
  | ONBOARD
  | DMXW
deriving DecidableEq, Repr

/-- `TestType_t` of TesterDefs.h lines 184-190. -/
inductive TestType
  | DISABLED
  | MANUAL
  | CHAN_SWEEP
  | PIXEL
deriving DecidableEq, Repr

/-- `TestState_t` of TesterDefs.h lines 192-197. -/
inductive TestState
  | STOPPED
  | PAUSED
  | RUNNING
deriving DecidableEq, Repr

/-- The `TSTCMD_ACK` return-code taxonomy as symbolic values (the richer
first block of TesterDefs.h lines 32-38, which includes the reboot
indicator; the numeric collision between the two `#define` blocks is
treated separately via the `TSTACK_*` numeric constants). -/
inductive TstAck
  | OK
  | OUTREBOOT
  | BAD_PARM
  | BAD_STATE
  | CORRUPTED
deriving DecidableEq, Repr

/-- The IPC commands of TesterDefs.h lines 76-165 as a closed variant
type (spec design note: numeric command-code dispatch is represented as a
tagged variant per protocol). -/
inductive TstCmd
  | TSTCMD_INIT
  | TSTCMD_STATE (state : TestState)
  | TSTCMD_TEST (output : TestOutput) (ty : TestType)
  | TSTCMD_SELECT (selectCmd : Nat) (chans : List Nat)
  | TSTCMD_VALUE (pairs : List (Nat × Nat))
  | TSTCMD_PIXCFG (pixLength : Nat)
deriving DecidableEq, Repr

/-- The HMI test session of spec section 3: state, selected output and
test type, the set of selected channels, and the channel values. -/
structure TestSession where
  state : TestState
  output : TestOutput
  type : TestType
  selected : List Nat
  values : List (Nat × Nat)
deriving DecidableEq, Repr

/-- The initial session: STOPPED, no output, disabled, nothing selected. -/
def initSession : TestSession :=
  ⟨.STOPPED, .NO_OUTPUT, .DISABLED, [], []⟩

/-- Store `value` for channel `chan`, replacing any previous value. -/
def setValue (values : List (Nat × Nat)) (chan value : Nat) :
    List (Nat × Nat) :=
  (chan, value) :: values.filter fun cv => cv.1 ≠ chan

/-- Apply a list of (channel, value) pairs in order. -/
def applyValues (values : List (Nat × Nat)) :
    List (Nat × Nat) → List (Nat × Nat)
  | [] => values
  | cv :: rest => applyValues (setValue values cv.1 cv.2) rest

/-- Modelled from the spec: the command dispatcher is not in the sources;
modelled from the per-command documentation of TesterDefs.h lines 76-165
and spec 4.5.  `TSTCMD_STATE` always succeeds, and setting the state to
STOPPED also resets the output to `NO_OUTPUT` and the type to `DISABLED`
(TesterDefs.h lines 94-97).  `TSTCMD_TEST` and `TSTCMD_SELECT` fail with
the bad-state code unless the current state is STOPPED (TesterDefs.h
lines 106-108 and 126-128).  `TSTCMD_VALUE` is valid in any state but
fails with the parameter code if `numChans` is zero or some listed
channel is outside the selection set (TesterDefs.h lines 143-150).
`TSTCMD_INIT` and `TSTCMD_PIXCFG` always succeed. -/
def handle (s : TestSession) : TstCmd → TestSession × TstAck
  | .TSTCMD_INIT => (s, .OK)
  | .TSTCMD_STATE st =>
      if st = .STOPPED then
        ({ s with state := .STOPPED, output := .NO_OUTPUT,
                  type := .DISABLED }, .OK)
      else ({ s with state := st }, .OK)
  | .TSTCMD_TEST o t =>
      if s.state = .STOPPED then ({ s with output := o, type := t }, .OK)
      else (s, .BAD_STATE)
  | .TSTCMD_SELECT c chans =>
      if s.state = .STOPPED then
        if c = SELECT_ADD then
          ({ s with selected :=
              s.selected ++ chans.filter fun x => ¬ x ∈ s.selected }, .OK)
        else if c = SELECT_DEL then
          ({ s with selected := s.selected.filter fun x => ¬ x ∈ chans },
           .OK)
        else if c = SELECT_CLR then ({ s with selected := [] }, .OK)
        else (s, .BAD_PARM)
      else (s, .BAD_STATE)
  | .TSTCMD_VALUE pairs =>
      if pairs = [] then (s, .BAD_PARM)
      else if pairs.all (fun cv => cv.1 ∈ s.selected) then
        ({ s with values := applyValues s.values pairs }, .OK)
      else (s, .BAD_PARM)
  | .TSTCMD_PIXCFG _ => (s, .OK)

/-! ## Output processor reboot handshake

TesterDefs.h lines 82-85: after the output processor reboots, it replies
to all IPC messages with `TSTACK_OUTREBOOT` until it receives
`TSTCMD_INIT`; `TSTCMD_INIT` always succeeds. -/

/-- The output processor: whether the startup handshake has been received
since the last reboot, plus its test session. -/
structure OutProcessor where
  initialized : Bool
  session : TestSession
deriving DecidableEq, Repr

/-- The output processor's state right after a reboot. -/
def rebootedProc (s : TestSession) : OutProcessor := ⟨false, s⟩

/-- Modelled from the spec: the output processor's receive loop is not in
the sources; modelled from TesterDefs.h lines 78-85: until `TSTCMD_INIT`
is received after a reboot, every inbound command is answered with the
reboot-indicator code; `TSTCMD_INIT` always succeeds and completes the
handshake; afterwards commands are dispatched normally. -/
def procStep (p : OutProcessor) (c : TstCmd) : OutProcessor × TstAck :=
  match c with
  | .TSTCMD_INIT => ({ p with initialized := true }, .OK)
  | c =>
      if p.initialized then
        let r := handle p.session c
        ({ p with session := r.1 }, r.2)
      else (p, .OUTREBOOT)

/-- Run the output processor over a command list, returning the final
state. -/
def procExec (p : OutProcessor) : List TstCmd → OutProcessor
  | [] => p
  | c :: rest => procExec (procStep p c).1 rest

/-- The reply the output processor gives to command `c` when `c` arrives
after the command prefix `pre`, starting from state `p`. -/
def replyAfter (p : OutProcessor) (pre : List TstCmd) (c : TstCmd) :
    TstAck :=
  (procStep (procExec p pre) c).2

/-! ## ChannelMapRegistry

DMXWNet.h declares the mapping record types `GatewayMapping` (lines
115-125), `NodeMapping` (lines 129-138) and `PortMapping` (lines
141-151); the registry operations are not in the sources. -/

/-- `struct GatewayMapping` of DMXWNet.h lines 115-125, without the
`dmxwChan` discriminator (a gateway table maps each live `dmxwChan` to
one of these records; an absent entry is the `dmxwChan == 0` empty
slot). -/
structure DmxwGwMapRecord where
  dmx512Chan : Nat
  nodeId : Nat
  port : Nat
  logarithmic : Bool
  value : Nat
deriving DecidableEq, Repr

/-- The gateway's mapping table: wireless channel to record. -/
abbrev GwTable := Nat → Option DmxwGwMapRecord

/-- The empty gateway table. -/
def emptyGw : GwTable := fun _ => none

/-- `struct NodeMapping` of DMXWNet.h lines 129-138; the source stores
the port as an `Int8` with -1 meaning "no assignment", modelled as
`Option Nat`. -/
structure DmxwNodeMapRecord where
  port : Option Nat
  isOutput : Bool
  isLogarithmic : Bool
  value : Nat
deriving DecidableEq, Repr

/-- A node's mapping table: one record per wireless channel. -/
abbrev NodeTable := Nat → DmxwNodeMapRecord

/-- The empty node table: every channel unassigned. -/
def emptyNode : NodeTable := fun _ => ⟨none, false, false, 0⟩

/-- Modelled from the spec: gateway `mapChannel` is not in the sources;
modelled from spec 4.2: it fails with the DMXW-channel error if
`dmxwChan` is out of range `1..MAX_DMXW_CHANS` or already bound to a
different, still-active assignment, and otherwise installs the record
with `value` defaulted to 0 (spec concrete scenario 2). -/
def mapChannel (t : GwTable) (dmxwChan dmx512Chan nodeId port : Nat)
    (logarithmic : Bool) : GwTable × Nat :=
  if dmxwChan < 1 ∨ MAX_DMXW_CHANS < dmxwChan then (t, ACK_EDMXW)
  else
    let newRec : DmxwGwMapRecord := ⟨dmx512Chan, nodeId, port, logarithmic, 0⟩
    match t dmxwChan with
    | some r => if r = newRec then (t, ACK_OK) else (t, ACK_EDMXW)
    | none => (fun d => if d = dmxwChan then some newRec else t d, ACK_OK)

/-- Modelled from the spec: gateway `unmapChannel` is not in the sources;
modelled from spec 4.2: it empties the channel's slot. -/
def unmapChannel (t : GwTable) (dmxwChan : Nat) : GwTable :=
  fun d => if d = dmxwChan then none else t d

/-- Does any channel other than `dmxwChan` currently hold `port`?  Only
channels `0..MAX_DMXW_CHANS` can hold a port (`assignPort` range-checks),
so scanning that range is exhaustive. -/
def portBoundElsewhere (t : NodeTable) (dmxwChan port : Nat) : Bool :=
  (List.range (MAX_DMXW_CHANS + 1)).any fun d =>
    d ≠ dmxwChan && (t d).port = some port

/-- Is `port` currently assigned to any channel? -/
def portActive (t : NodeTable) (port : Nat) : Bool :=
  (List.range (MAX_DMXW_CHANS + 1)).any fun d => (t d).port = some port

/-- Modelled from the spec: node `assignPort` is not in the sources;
modelled from spec 4.2: it fails with the DMXW-channel error if the
channel is out of range, with the port error if the port is already bound
to another channel or the port's `conflictPort` (the `PortMapping`
configuration, passed as `conflictOf`) is currently active; otherwise it
assigns the port to the channel. -/
def assignPort (conflictOf : Nat → Option Nat) (t : NodeTable)
    (dmxwChan port : Nat) (isOutput logarithmic : Bool) :
    NodeTable × Nat :=
  if dmxwChan < 1 ∨ MAX_DMXW_CHANS < dmxwChan then (t, ACK_EDMXW)
  else if portBoundElsewhere t dmxwChan port then (t, ACK_EPORT)
  else
    match conflictOf port with
    | some q =>
        if portActive t q then (t, ACK_EPORT)
        else
          (fun d => if d = dmxwChan then ⟨some port, isOutput, logarithmic, 0⟩
                    else t d, ACK_OK)
    | none =>
        (fun d => if d = dmxwChan then ⟨some port, isOutput, logarithmic, 0⟩
                  else t d, ACK_OK)

/-- Modelled from the spec: node `clearChannel` is not in the sources;
modelled from spec 4.2: it removes the channel's assignment. -/
def clearChannel (t : NodeTable) (dmxwChan : Nat) : NodeTable :=
  fun d => if d = dmxwChan then ⟨none, false, false, 0⟩ else t d

/-- A node-side registry operation (spec 4.2). -/
inductive NodeOp
  | assign (dmxwChan port : Nat) (isOutput logarithmic : Bool)
  | clear (dmxwChan : Nat)
  | clearAll
deriving DecidableEq, Repr

/-- Run a sequence of node-side operations. -/
def runNode (conflictOf : Nat → Option Nat) (t : NodeTable) :
    List NodeOp → NodeTable
  | [] => t
  | .assign d p o l :: rest =>
      runNode conflictOf (assignPort conflictOf t d p o l).1 rest
  | .clear d :: rest => runNode conflictOf (clearChannel t d) rest
  | .clearAll :: rest => runNode conflictOf emptyNode rest

/-- A gateway-side registry operation (spec 4.2). -/
inductive GwOp
  | map (dmxwChan dmx512Chan nodeId port : Nat) (logarithmic : Bool)
  | unmap (dmxwChan : Nat)
deriving DecidableEq, Repr

/-- Run a sequence of gateway-side operations. -/
def runGw (t : GwTable) : List GwOp → GwTable
  | [] => t
  | .map d c n p l :: rest => runGw (mapChannel t d c n p l).1 rest
  | .unmap d :: rest => runGw (unmapChannel t d) rest

/-- Gateway mapping uniqueness: no two distinct live wireless channels
reference the same (node, port) pair. -/
def GwUnique (t : GwTable) : Prop :=
  ∀ d1 d2 r1 r2, d1 ≠ d2 → t d1 = some r1 → t d2 = some r2 →
    (r1.nodeId, r1.port) ≠ (r2.nodeId, r2.port)

/-- Node mapping uniqueness: no port is referenced by two distinct
channels simultaneously. -/
def NodeUnique (t : NodeTable) : Prop :=
  ∀ d1 d2 p, d1 ≠ d2 → (t d1).port = some p → (t d2).port = some p →
    False

/-- Node tables only assign ports to channels in range `1..MAX_DMXW_CHANS`
(everything `assignPort` accepts); needed so the bounded scan of
`portBoundElsewhere` is exhaustive. -/
def NodeInRange (t : NodeTable) : Prop :=
  ∀ d, MAX_DMXW_CHANS < d → (t d).port = none

/-! ## FrameCodec lemmas -/

/-- Unfolding `feedAll` one byte at a time. -/
theorem feedAll_cons (s : CodecState) (b : Nat) (rest : List Nat) :
    feedAll s (b :: rest) =
      ((feedAll (feed s b).1 rest).1,
       (feed s b).2 :: (feedAll (feed s b).1 rest).2) := rfl

/-- `feedAll` over an append runs the two parts in sequence. -/
theorem feedAll_append (xs : List Nat) : ∀ (s : CodecState) (ys : List Nat),
    feedAll s (xs ++ ys) =
      ((feedAll (feedAll s xs).1 ys).1,
       (feedAll s xs).2 ++ (feedAll (feedAll s xs).1 ys).2) := by
  induction xs with
  | nil => intro s ys; simp [feedAll]
  | cons b tl ih => intro s ys; simp [feedAll_cons, ih, List.cons_append]

/-- A run of `incomplete` results carries no frame. -/
theorem filterMap_framePart_incompletes (l : List Nat) :
    ((l.map fun _ => FeedResult.incomplete).filterMap framePart) = [] := by
  induction l with
  | nil => rfl
  | cons b tl ih => simp [framePart, ih]

/-- In `SEEK` or `PURGE`, an STX moves the receiver to `SEEK2`. -/
theorem feed_stx_restart (q : Nat) (bf : List Nat) (st : IpcState)
    (hst : st = .seek ∨ st = .purge) :
    feed ⟨st, q, bf⟩ CHAR_STX = (⟨.seek2, q, bf⟩, .incomplete) := by
  rcases hst with h | h <;> subst h <;> simp [feed]

/-- In `SEEK2`, a second STX moves the receiver to `SEQNUM`. -/
theorem feed_seek2_stx (q : Nat) (bf : List Nat) :
    feed ⟨.seek2, q, bf⟩ CHAR_STX = (⟨.seqnum, q, bf⟩, .incomplete) := by
  simp [feed]

/-- `SEQNUM` consumes any byte as the sequence number and starts a fresh
collection. -/
theorem feed_seqnum (q b : Nat) (bf : List Nat) :
    feed ⟨.seqnum, q, bf⟩ b = (⟨.collect, b, []⟩, .incomplete) := by
  simp [feed]

/-- In `COLLECT`, an ordinary byte (below the escape range) is appended
to the buffer when there is room. -/
theorem feed_collect_plain (q b : Nat) (acc : List Nat)
    (hb : b < CHAR_ESC) (hlen : acc.length < MAX_SERIAL_BUF_LEN) :
    feed ⟨.collect, q, acc⟩ b =
      (⟨.collect, q, acc ++ [b]⟩, .incomplete) := by
  have h1 : b ≠ CHAR_STX := by
    simp only [CHAR_ESC, CHAR_STX] at *; omega
  have h2 : b ≠ CHAR_ESC := Nat.ne_of_lt hb
  have h3 : b ≠ CHAR_ETX := by
    simp only [CHAR_ESC, CHAR_ETX] at *; omega
  simp [feed, h1, h2, h3, Nat.not_le.mpr hlen]

/-- In `COLLECT`, an ESC byte moves to the `ESC` state without touching
the buffer. -/
theorem feed_collect_escChar (q : Nat) (acc : List Nat) :
    feed ⟨.collect, q, acc⟩ CHAR_ESC = (⟨.esc, q, acc⟩, .incomplete) := by
  simp [feed, CHAR_ESC, CHAR_STX]

/-- In `COLLECT`, an unescaped ETX ends the payload and moves to `CRC`. -/
theorem feed_collect_etx (q : Nat) (acc : List Nat) :
    feed ⟨.collect, q, acc⟩ CHAR_ETX = (⟨.crc, q, acc⟩, .incomplete) := by
  simp [feed, CHAR_ESC, CHAR_STX, CHAR_ETX]

/-- In the `ESC` state, the next byte is appended literally when there is
room. -/
theorem feed_esc_literal (q b : Nat) (acc : List Nat)
    (hlen : acc.length < MAX_SERIAL_BUF_LEN) :
    feed ⟨.esc, q, acc⟩ b = (⟨.collect, q, acc ++ [b]⟩, .incomplete) := by
  simp [feed, Nat.not_le.mpr hlen]

/-- In `CRC`, a matching checksum byte (other than STX) emits the frame
and returns to `SEEK`. -/
theorem feed_crc_match (q : Nat) (acc : List Nat)
    (hcrc : crc8 (q :: acc) ≠ CHAR_STX) :
    feed ⟨.crc, q, acc⟩ (crc8 (q :: acc)) =
      (⟨.seek, q, []⟩, .frame q acc) := by
  simp [feed, hcrc]

/-- Feeding the escaped payload in `COLLECT` accumulates exactly the
unescaped bytes, emitting no frames, provided the buffer stays within
`MAX_SERIAL_BUF_LEN`. -/
theorem feedAll_collect_escape (rest : List Nat) :
    ∀ (acc : List Nat) (q : Nat), (∀ b ∈ rest, b < 256) →
    acc.length + rest.length ≤ MAX_SERIAL_BUF_LEN →
    feedAll ⟨.collect, q, acc⟩ (escapePayload rest) =
      (⟨.collect, q, acc ++ rest⟩,
       (escapePayload rest).map fun _ => FeedResult.incomplete) := by
  induction rest with
  | nil =>
      intro acc q _ _
      simp [escapePayload, feedAll]
  | cons b tl ih =>
      intro acc q hb hlen
      have hroom : acc.length < MAX_SERIAL_BUF_LEN := by
        simp only [List.length_cons] at hlen; omega
      have hlen' : (acc ++ [b]).length + tl.length ≤ MAX_SERIAL_BUF_LEN := by
        simp only [List.length_append, List.length_cons,
          List.length_nil] at *
        omega
      have htl : ∀ x ∈ tl, x < 256 := fun x hx => hb x (by simp [hx])
      by_cases hesc : CHAR_ESC ≤ b
      · have hstep : escapePayload (b :: tl) =
            CHAR_ESC :: b :: escapePayload tl := by
          simp [escapePayload, escapeByte, hesc]
        rw [hstep, feedAll_cons, feed_collect_escChar, feedAll_cons,
          feed_esc_literal q b acc hroom, ih (acc ++ [b]) q htl hlen']
        simp [hstep]
      · have hblt : b < CHAR_ESC := Nat.not_le.mp hesc
        have hstep : escapePayload (b :: tl) = b :: escapePayload tl := by
          simp [escapePayload, escapeByte, hesc]
        rw [hstep, feedAll_cons, feed_collect_plain q b acc hblt hroom,
          ih (acc ++ [b]) q htl hlen']
        simp [hstep]

/-- From `SEEK` or `PURGE` (with any residual seq/buffer), feeding one
complete encoded frame yields exactly that frame, provided the payload
fits the buffer and the frame's checksum byte is not STX. -/
theorem framesOf_encode (s : CodecState)
    (hst : s.st = .seek ∨ s.st = .purge) (seq : Nat) (payload : List Nat)
    (hp : ∀ b ∈ payload, b < 256)
    (hlen : payload.length ≤ MAX_SERIAL_BUF_LEN)
    (hcrc : crc8 (seq :: payload) ≠ CHAR_STX) :
    framesOf s (encode seq payload) = [(seq, payload)] := by
  obtain ⟨st, q, bf⟩ := s
  simp only at hst
  have hen : encode seq payload =
      CHAR_STX :: CHAR_STX :: seq ::
        (escapePayload payload ++ [CHAR_ETX, crc8 (seq :: payload)]) := by
    simp [encode]
  rw [framesOf, hen, feedAll_cons, feed_stx_restart q bf st hst,
    feedAll_cons, feed_seek2_stx, feedAll_cons, feed_seqnum,
    feedAll_append, feedAll_collect_escape payload [] seq hp (by simpa)]
  simp only [List.nil_append, feedAll_cons, feed_collect_etx,
    feed_crc_match seq payload hcrc, feedAll]
  simp [filterMap_framePart_incompletes, framePart]

/-- Bytes other than STX are discarded in `SEEK` and in `PURGE`, leaving
the receiver state untouched and emitting nothing. -/
theorem feedAll_discard (garbage : List Nat) :
    ∀ (s : CodecState), (s.st = .seek ∨ s.st = .purge) →
    (∀ b ∈ garbage, b ≠ CHAR_STX) →
    feedAll s garbage =
      (s, garbage.map fun _ => FeedResult.incomplete) := by
  induction garbage with
  | nil => intro s _ _; simp [feedAll]
  | cons b tl ih =>
      intro s hst hb
      have hbn : b ≠ CHAR_STX := hb b (by simp)
      have hfeed : feed s b = (s, .incomplete) := by
        obtain ⟨st, q, bf⟩ := s
        simp only at hst
        rcases hst with h | h <;> subst h <;> simp [feed, hbn]
      rw [feedAll_cons, hfeed,
        ih s hst fun x hx => hb x (by simp [hx])]
      simp

/-! ## Theorems -/

/-- C1 (amended): decoding the encoding is the identity for every
sequence number and every byte payload — any mixture of the reserved
values 253/254/255 and ordinary bytes — provided the payload fits the
receive buffer (`length ≤ MAX_SERIAL_BUF_LEN`) and the frame's checksum
byte is not `CHAR_STX` (an unescaped STX in the `CRC` state is a framing
error). -/
theorem C1_round_trip (seq : Nat) (payload : List Nat) (_hseq : seq < 256)
    (hp : ∀ b ∈ payload, b < 256)
    (hlen : payload.length ≤ MAX_SERIAL_BUF_LEN)
    (hcrc : crc8 (seq :: payload) ≠ CHAR_STX) :
    decode (encode seq payload) = [(seq, payload)] :=
  framesOf_encode initState (Or.inl rfl) seq payload hp hlen hcrc

/-- Witness for C1: the spec's concrete scenario 1 — `encode(5,[1,253,9])`
is `STX STX 5 1 ESC 253 9 ETX crc` and decodes back to `(5,[1,253,9])`. -/
theorem C1_round_trip_witness :
    decode (encode 5 [1, 253, 9]) = [(5, [1, 253, 9])] ∧
    encode 5 [1, 253, 9] =
      [CHAR_STX, CHAR_STX, 5, 1, CHAR_ESC, 253, 9, CHAR_ETX,
        crc8 [5, 1, 253, 9]] :=
  ⟨C1_round_trip 5 [1, 253, 9] (by decide) (by decide) (by decide)
      (by decide),
    by decide⟩

/-- Counterexample to C1 as stated: for seq 0 and payload `[145]` the
frame's CRC-8 equals `CHAR_STX` (254); the receiver treats that unescaped
STX in the `CRC` state as a framing error and purges, so decoding the
encoding yields no frame at all. -/
theorem C1_counterexample :
    crc8 [0, 145] = CHAR_STX ∧ decode (encode 0 [145]) = [] ∧
    decode (encode 0 [145]) ≠ [(0, [145])] := by
  decide

/-- C5 (amended): feeding garbage followed by a valid encoded frame
yields exactly that frame, for a receiver in `SEEK` or `PURGE` (with any
residual sequence/buffer contents), provided no garbage byte equals
`CHAR_STX` and the frame itself decodes (payload within the buffer bound,
checksum byte not STX). -/
theorem C5_resync (s : CodecState) (garbage : List Nat) (seq : Nat)
    (payload : List Nat) (hst : s.st = .seek ∨ s.st = .purge)
    (hg : ∀ b ∈ garbage, b ≠ CHAR_STX)
    (hp : ∀ b ∈ payload, b < 256)
    (hlen : payload.length ≤ MAX_SERIAL_BUF_LEN)
    (hcrc : crc8 (seq :: payload) ≠ CHAR_STX) :
    framesOf s (garbage ++ encode seq payload) = [(seq, payload)] := by
  rw [framesOf, feedAll_append, feedAll_discard garbage s hst hg]
  simp only [List.filterMap_append, filterMap_framePart_incompletes,
    List.nil_append]
  exact framesOf_encode s hst seq payload hp hlen hcrc

/-- Witness for C5: garbage `[7, 200, 255]` followed by
`encode(5,[1,253,9])` decodes, from the initial state, to exactly that
frame. -/
theorem C5_resync_witness :
    framesOf initState ([7, 200, 255] ++ encode 5 [1, 253, 9]) =
      [(5, [1, 253, 9])] :=
  C5_resync initState [7, 200, 255] 5 [1, 253, 9] (Or.inl rfl)
    (by decide) (by decide) (by decide) (by decide)

/-- Counterexample to C5 as stated: from the initial state, the garbage
`[STX, STX]` leaves the receiver in `SEQNUM`, so the first STX of the
following valid frame is consumed as a sequence number and the second
aborts collection into `PURGE`: the frame `encode 0 []` — valid on its
own — is lost entirely. -/
theorem C5_counterexample :
    decode (encode 0 []) = [(0, [])] ∧
    decode ([CHAR_STX, CHAR_STX] ++ encode 0 []) = [] ∧
    decode ([CHAR_STX, CHAR_STX] ++ encode 0 []) ≠ [(0, [])] := by
  decide

/-- C6: the receiver's buffer never exceeds `MAX_SERIAL_BUF_LEN` — it is
bounded over every input sequence from the initial state and every feed
step preserves the bound — and the feed step that would exceed it (an
appending byte arriving in `COLLECT` with a full buffer, or any literal
in `ESC` with a full buffer) returns `Error overflow` and moves the
receiver to `PURGE` with an emptied buffer. -/
theorem C6_buffer_bound :
    (∀ bytes : List Nat,
      (feedAll initState bytes).1.buf.length ≤ MAX_SERIAL_BUF_LEN) ∧
    (∀ (s : CodecState) (b : Nat),
      s.buf.length ≤ MAX_SERIAL_BUF_LEN →
      (feed s b).1.buf.length ≤ MAX_SERIAL_BUF_LEN) ∧
    (∀ (q b : Nat) (acc : List Nat),
      MAX_SERIAL_BUF_LEN ≤ acc.length → b ≠ CHAR_STX → b ≠ CHAR_ESC →
      b ≠ CHAR_ETX →
      feed ⟨.collect, q, acc⟩ b = (⟨.purge, q, []⟩, .error .overflow)) ∧
    (∀ (q b : Nat) (acc : List Nat),
      MAX_SERIAL_BUF_LEN ≤ acc.length →
      feed ⟨.esc, q, acc⟩ b = (⟨.purge, q, []⟩, .error .overflow)) := by
  have hstep : ∀ (s : CodecState) (b : Nat),
      s.buf.length ≤ MAX_SERIAL_BUF_LEN →
      (feed s b).1.buf.length ≤ MAX_SERIAL_BUF_LEN := by
    intro s b h
    obtain ⟨st, q, bf⟩ := s
    simp only at h
    cases st <;> simp only [feed] <;> (try split_ifs) <;>
      simp_all [List.length_append] <;> omega
  refine ⟨?_, hstep, ?_, ?_⟩
  · intro bytes
    have hrun : ∀ (l : List Nat) (s : CodecState),
        s.buf.length ≤ MAX_SERIAL_BUF_LEN →
        (feedAll s l).1.buf.length ≤ MAX_SERIAL_BUF_LEN := by
      intro l
      induction l with
      | nil => intro s h; simpa [feedAll] using h
      | cons b tl ih =>
          intro s h
          rw [feedAll_cons]
          exact ih (feed s b).1 (hstep s b h)
    exact hrun bytes initState (by simp [initState])
  · intro q b acc hfull h1 h2 h3
    simp [feed, h1, h2, h3, hfull]
  · intro q b acc hfull
    simp [feed, hfull]

/-- Witness for C6 at a concrete run and a concrete full-buffer step. -/
theorem C6_buffer_bound_witness :
    (feedAll initState
        [CHAR_STX, CHAR_STX, 7, 1, 2, 3]).1.buf.length ≤
      MAX_SERIAL_BUF_LEN ∧
    feed ⟨.collect, 0, List.replicate 64 5⟩ 9 =
      (⟨.purge, 0, []⟩, .error .overflow) :=
  ⟨C6_buffer_bound.1 [CHAR_STX, CHAR_STX, 7, 1, 2, 3],
    C6_buffer_bound.2.2.1 0 9 (List.replicate 64 5) (by decide)
      (by decide) (by decide) (by decide)⟩

/-- C2: a unicast send that requires acknowledgement and never receives
one performs exactly `1 + TX_NUM_RETRIES` transmission attempts (three,
since `TX_NUM_RETRIES = 2`), waits `ACK_WAIT_TIME` per attempt (so
`(1 + TX_NUM_RETRIES) * ACK_WAIT_TIME` in total, each attempt's wait at
most `ACK_WAIT_TIME`), and returns `ACK_ETIME`. -/
theorem C2_retry_bound (ackDelay : Nat → Option Nat)
    (h : ∀ i, ackDelay i = none) :
    sendUnicast ackDelay =
      (1 + TX_NUM_RETRIES, (1 + TX_NUM_RETRIES) * ACK_WAIT_TIME,
        ACK_ETIME) ∧
    1 + TX_NUM_RETRIES = 3 := by
  refine ⟨?_, rfl⟩
  simp [sendUnicast, sendGo, h, TX_NUM_RETRIES, ACK_WAIT_TIME, ACK_ETIME]

/-- Witness for C2 at the environment that never acknowledges. -/
theorem C2_retry_bound_witness :
    sendUnicast (fun _ => none) =
      (1 + TX_NUM_RETRIES, (1 + TX_NUM_RETRIES) * ACK_WAIT_TIME,
        ACK_ETIME) ∧
    1 + TX_NUM_RETRIES = 3 :=
  C2_retry_bound (fun _ => none) (fun _ => rfl)

/-- C3: from every prior session, a `TSTCMD_STATE` command whose argument
is STOPPED leaves the session with output `NO_OUTPUT` and type
`DISABLED` (and state STOPPED), and succeeds. -/
theorem C3_stop_resets (s : TestSession) :
    (handle s (.TSTCMD_STATE .STOPPED)).1.output = .NO_OUTPUT ∧
    (handle s (.TSTCMD_STATE .STOPPED)).1.type = .DISABLED ∧
    (handle s (.TSTCMD_STATE .STOPPED)).1.state = .STOPPED ∧
    (handle s (.TSTCMD_STATE .STOPPED)).2 = .OK := by
  simp [handle]

/-- Witness for C3 at a running session with nontrivial prior values. -/
theorem C3_stop_resets_witness :
    (handle ⟨.RUNNING, .DMXW, .MANUAL, [1, 2], [(1, 9)]⟩
        (.TSTCMD_STATE .STOPPED)).1.output = .NO_OUTPUT ∧
    (handle ⟨.RUNNING, .DMXW, .MANUAL, [1, 2], [(1, 9)]⟩
        (.TSTCMD_STATE .STOPPED)).1.type = .DISABLED ∧
    (handle ⟨.RUNNING, .DMXW, .MANUAL, [1, 2], [(1, 9)]⟩
        (.TSTCMD_STATE .STOPPED)).1.state = .STOPPED ∧
    (handle ⟨.RUNNING, .DMXW, .MANUAL, [1, 2], [(1, 9)]⟩
        (.TSTCMD_STATE .STOPPED)).2 = .OK :=
  C3_stop_resets ⟨.RUNNING, .DMXW, .MANUAL, [1, 2], [(1, 9)]⟩

/-- C4: in every session state other than STOPPED, `TSTCMD_TEST` and
`TSTCMD_SELECT` are rejected with the bad-state code and the session is
returned unchanged in every field; while the state is STOPPED they are
never rejected with the bad-state code. -/
theorem C4_guarded_commands (s : TestSession) (o : TestOutput)
    (t : TestType) (c : Nat) (chans : List Nat) :
    (s.state ≠ .STOPPED →
      handle s (.TSTCMD_TEST o t) = (s, .BAD_STATE) ∧
      handle s (.TSTCMD_SELECT c chans) = (s, .BAD_STATE)) ∧
    (s.state = .STOPPED →
      (handle s (.TSTCMD_TEST o t)).2 ≠ .BAD_STATE ∧
      (handle s (.TSTCMD_SELECT c chans)).2 ≠ .BAD_STATE) := by
  constructor
  · intro h
    simp [handle, h]
  · intro h
    refine ⟨by simp [handle, h], ?_⟩
    simp only [handle, h, if_true]
    split_ifs <;> simp

/-- Witness for C4: the spec's concrete scenario 3, a `TSTCMD_TEST` while
RUNNING is answered with the bad-state code and the session unchanged. -/
theorem C4_guarded_commands_witness :
    handle ⟨.RUNNING, .ONBOARD, .MANUAL, [3], []⟩
        (.TSTCMD_TEST .DMXW .MANUAL) =
      (⟨.RUNNING, .ONBOARD, .MANUAL, [3], []⟩, .BAD_STATE) :=
  ((C4_guarded_commands ⟨.RUNNING, .ONBOARD, .MANUAL, [3], []⟩ .DMXW
      .MANUAL SELECT_ADD [1]).1 (by decide)).1

/-! ## Registry lemmas -/

/-- If the bounded elsewhere-scan is false and out-of-range channels are
unassigned, then no channel other than `d` holds `p`. -/
theorem portBoundElsewhere_false (t : NodeTable) (d p : Nat)
    (hr : NodeInRange t) (hb : portBoundElsewhere t d p = false) :
    ∀ e, e ≠ d → (t e).port ≠ some p := by
  intro e hne hsome
  by_cases he : e ≤ MAX_DMXW_CHANS
  · rw [portBoundElsewhere, List.any_eq_false] at hb
    have hmem : e ∈ List.range (MAX_DMXW_CHANS + 1) :=
      List.mem_range.mpr (by omega)
    have := hb e hmem
    simp [hne, hsome] at this
  · exact absurd hsome (by simp [hr e (by omega)])

/-- Updating channel `d` with a port held by no other channel preserves
the node invariant. -/
theorem nodeInv_update (t : NodeTable) (d p : Nat) (o l : Bool)
    (h : NodeInRange t ∧ NodeUnique t) (hd : d ≤ MAX_DMXW_CHANS)
    (hfresh : ∀ e, e ≠ d → (t e).port ≠ some p) :
    NodeInRange (fun e => if e = d then ⟨some p, o, l, 0⟩ else t e) ∧
    NodeUnique (fun e => if e = d then ⟨some p, o, l, 0⟩ else t e) := by
  constructor
  · intro e hgt
    have : e ≠ d := by omega
    simp [this, h.1 e hgt]
  · intro d1 d2 p' hne h1 h2
    by_cases e1 : d1 = d <;> by_cases e2 : d2 = d
    · exact hne (e1.trans e2.symm)
    · simp [e1, e2] at h1 h2
      exact hfresh d2 (Ne.symm (e1 ▸ hne)) (h1 ▸ h2)
    · simp [e1, e2] at h1 h2
      exact hfresh d1 (by simpa [e2] using hne) (h2 ▸ h1)
    · simp [e1, e2] at h1 h2
      exact h.2 d1 d2 p' hne h1 h2

/-- `assignPort` preserves the node invariant (range plus uniqueness). -/
theorem assignPort_preserves (conflictOf : Nat → Option Nat)
    (t : NodeTable) (d p : Nat) (o l : Bool)
    (h : NodeInRange t ∧ NodeUnique t) :
    NodeInRange (assignPort conflictOf t d p o l).1 ∧
    NodeUnique (assignPort conflictOf t d p o l).1 := by
  rw [assignPort]
  split_ifs with h1 h2
  · exact h
  · exact h
  · have hd : d ≤ MAX_DMXW_CHANS := by omega
    have hfresh := portBoundElsewhere_false t d p h.1
      (by simpa using h2)
    cases hq : conflictOf p with
    | none => exact nodeInv_update t d p o l h hd hfresh
    | some q =>
        by_cases ha : portActive t q
        · simp [ha]
          exact h
        · simp [ha]
          exact nodeInv_update t d p o l h hd hfresh

/-- `clearChannel` preserves the node invariant. -/
theorem clearChannel_preserves (t : NodeTable) (d : Nat)
    (h : NodeInRange t ∧ NodeUnique t) :
    NodeInRange (clearChannel t d) ∧ NodeUnique (clearChannel t d) := by
  constructor
  · intro e hgt
    rw [clearChannel]
    split_ifs <;> simp [h.1 e hgt]
  · intro d1 d2 p hne h1 h2
    rw [clearChannel] at h1 h2
    by_cases e1 : d1 = d <;> by_cases e2 : d2 = d <;>
      simp [e1, e2] at h1 h2
    exact h.2 d1 d2 p hne h1 h2

/-- The empty node table satisfies the invariant. -/
theorem emptyNode_inv : NodeInRange emptyNode ∧ NodeUnique emptyNode := by
  constructor
  · intro e _
    rfl
  · intro d1 d2 p _ h1 _
    simp [emptyNode] at h1

/-- Every sequence of node-side operations preserves the invariant. -/
theorem runNode_inv (ops : List NodeOp) :
    ∀ (conflictOf : Nat → Option Nat) (t : NodeTable),
    NodeInRange t ∧ NodeUnique t →
    NodeInRange (runNode conflictOf t ops) ∧
    NodeUnique (runNode conflictOf t ops) := by
  induction ops with
  | nil => intro _ t h; exact h
  | cons op tl ih =>
      intro conflictOf t h
      cases op with
      | assign d p o l =>
          exact ih conflictOf _ (assignPort_preserves conflictOf t d p o l h)
      | clear d => exact ih conflictOf _ (clearChannel_preserves t d h)
      | clearAll => exact ih conflictOf _ emptyNode_inv

/-- `mapChannel` preserves gateway uniqueness when the new (node, port)
pair is not currently bound to any live channel. -/
theorem mapChannel_preserves (t : GwTable) (d c n p : Nat) (l : Bool)
    (hu : GwUnique t)
    (hfresh : ∀ d' r, t d' = some r → (r.nodeId, r.port) ≠ (n, p)) :
    GwUnique (mapChannel t d c n p l).1 := by
  rw [mapChannel]
  split_ifs with h1
  · exact hu
  · cases ht : t d with
    | some r =>
        dsimp only
        split_ifs <;> exact hu
    | none =>
        dsimp only
        intro d1 d2 r1 r2 hne e1 e2
        by_cases q1 : d1 = d <;> by_cases q2 : d2 = d
        · exact absurd (q1.trans q2.symm) hne
        · simp [q1, q2] at e1 e2
          intro hpair
          exact hfresh d2 r2 e2 (by rw [← hpair, ← e1])
        · simp [q1, q2] at e1 e2
          intro hpair
          exact hfresh d1 r1 e1 (by rw [hpair, ← e2])
        · simp [q1, q2] at e1 e2
          exact hu d1 d2 r1 r2 hne e1 e2

/-- `unmapChannel` always preserves gateway uniqueness. -/
theorem unmapChannel_preserves (t : GwTable) (d : Nat)
    (hu : GwUnique t) : GwUnique (unmapChannel t d) := by
  intro d1 d2 r1 r2 hne e1 e2
  rw [unmapChannel] at e1 e2
  by_cases q1 : d1 = d <;> by_cases q2 : d2 = d <;>
    simp [q1, q2] at e1 e2
  exact hu d1 d2 r1 r2 hne e1 e2

/-- The empty gateway table is trivially unique. -/
theorem emptyGw_unique : GwUnique emptyGw := by
  intro d1 d2 r1 r2 _ h1 _
  simp [emptyGw] at h1

/-! ## Output-processor lemmas -/

/-- Unfolding `procExec` one command at a time. -/
theorem procExec_cons (p : OutProcessor) (c : TstCmd)
    (rest : List TstCmd) :
    procExec p (c :: rest) = procExec (procStep p c).1 rest := rfl

/-- Normal dispatch never replies with the reboot indicator. -/
theorem handle_ne_outreboot (s : TestSession) (c : TstCmd) :
    (handle s c).2 ≠ .OUTREBOOT := by
  cases c <;> simp only [handle] <;> (try split_ifs) <;> simp

/-- A processor step never clears the handshake flag. -/
theorem procStep_keeps_initialized (p : OutProcessor) (c : TstCmd)
    (h : p.initialized = true) : (procStep p c).1.initialized = true := by
  cases c <;> simp [procStep, h]

/-- An initialized processor never replies with the reboot indicator. -/
theorem procStep_initialized_reply (p : OutProcessor) (c : TstCmd)
    (h : p.initialized = true) : (procStep p c).2 ≠ .OUTREBOOT := by
  cases c
  case TSTCMD_INIT => simp [procStep]
  all_goals
    simp only [procStep, h, if_true]
    exact handle_ne_outreboot _ _

/-- An uninitialized processor is left unchanged by commands other than
the handshake. -/
theorem procExec_uninit (pre : List TstCmd) :
    ∀ (p : OutProcessor), p.initialized = false →
    (∀ x ∈ pre, x ≠ TstCmd.TSTCMD_INIT) → procExec p pre = p := by
  induction pre with
  | nil => intro p _ _; rfl
  | cons c tl ih =>
      intro p hp hpre
      have hc : c ≠ TstCmd.TSTCMD_INIT := hpre c (by simp)
      have hstep : (procStep p c).1 = p := by
        cases c
        case TSTCMD_INIT => exact absurd rfl hc
        all_goals simp [procStep, hp]
      rw [procExec_cons, hstep]
      exact ih p hp fun x hx => hpre x (by simp [hx])

/-- Once initialized, the processor stays initialized. -/
theorem procExec_keeps_initialized (pre : List TstCmd) :
    ∀ p, p.initialized = true → (procExec p pre).initialized = true := by
  induction pre with
  | nil => intro p h; exact h
  | cons c tl ih =>
      intro p h
      rw [procExec_cons]
      exact ih _ (procStep_keeps_initialized p c h)

/-- After a prefix containing the handshake, the processor is
initialized. -/
theorem procExec_after_init (pre : List TstCmd) :
    ∀ p, TstCmd.TSTCMD_INIT ∈ pre → (procExec p pre).initialized = true := by
  induction pre with
  | nil => intro p h; simp at h
  | cons c tl ih =>
      intro p hmem
      rw [procExec_cons]
      by_cases hc : c = TstCmd.TSTCMD_INIT
      · subst hc
        apply procExec_keeps_initialized
        simp [procStep]
      · have hmem' : TstCmd.TSTCMD_INIT ∈ tl := by
          rcases List.mem_cons.mp hmem with h | h
          · exact absurd h.symm hc
          · exact h
        exact ih _ hmem'

/-- C9: TesterDefs.h defines the `TSTCMD_ACK` return codes twice with
conflicting values: the first block has `TSTACK_OUTREBOOT = 1`,
`TSTACK_BAD_PARM = 2`, `TSTACK_BAD_STATE = 3`, `TSTACK_CORRUPTED = 4`;
the second (textually later, hence effective) block has
`TSTACK_BAD_PARM = 1`, `TSTACK_BAD_STATE = 2`, `TSTACK_CORRUPTED = 3`
and no reboot code, so the effective `TSTACK_BAD_PARM` coincides
numerically with the first block's reboot indicator. -/
theorem C9_tstack_conflict :
    TSTACK_OUTREBOOT = 1 ∧ TSTACK_BAD_PARM_first = 2 ∧
    TSTACK_BAD_STATE_first = 3 ∧ TSTACK_CORRUPTED_first = 4 ∧
    TSTACK_BAD_PARM = 1 ∧ TSTACK_BAD_STATE = 2 ∧
    TSTACK_CORRUPTED = 3 ∧
    TSTACK_BAD_PARM = TSTACK_OUTREBOOT ∧
    TSTACK_BAD_PARM_first ≠ TSTACK_BAD_PARM ∧
    TSTACK_BAD_STATE_first ≠ TSTACK_BAD_STATE := by
  decide

/-- C10: `NODEID_MAX = MAX_DMXW_CHANS + 1 = 49` lies strictly between
`MAX_NODES = 20` and `BROADCASTID = 255`; the valid identity range
`[1, NODEID_MAX]` has 49 members, more than `MAX_NODES`, and no member
collides with the broadcast id or with `NODEID_UNDEF = 0`. -/
theorem C10_nodeid_ranges (n : Nat) (h1 : 1 ≤ n) (h2 : n ≤ NODEID_MAX) :
    NODEID_MAX = MAX_DMXW_CHANS + 1 ∧ NODEID_MAX = 49 ∧
    MAX_NODES < NODEID_MAX ∧ NODEID_MAX < BROADCASTID ∧
    (Finset.Icc 1 NODEID_MAX).card = 49 ∧
    MAX_NODES < (Finset.Icc 1 NODEID_MAX).card ∧
    n ≠ BROADCASTID ∧ n ≠ NODEID_UNDEF := by
  have hc : (Finset.Icc 1 NODEID_MAX).card = 49 := by
    simp [Nat.card_Icc, NODEID_MAX, MAX_DMXW_CHANS]
  refine ⟨rfl, by decide, by decide, by decide, hc, ?_, ?_, ?_⟩
  · rw [hc]; decide
  · revert h2; simp only [NODEID_MAX, MAX_DMXW_CHANS, BROADCASTID]; omega
  · revert h1; simp only [NODEID_UNDEF]; omega

/-- Witness for C10 at node identity 5. -/
theorem C10_nodeid_ranges_witness :
    NODEID_MAX = MAX_DMXW_CHANS + 1 ∧ NODEID_MAX = 49 ∧
    MAX_NODES < NODEID_MAX ∧ NODEID_MAX < BROADCASTID ∧
    (Finset.Icc 1 NODEID_MAX).card = 49 ∧
    MAX_NODES < (Finset.Icc 1 NODEID_MAX).card ∧
    5 ≠ BROADCASTID ∧ 5 ≠ NODEID_UNDEF :=
  C10_nodeid_ranges 5 (by decide) (by decide)

/-- C7 (amended): on the node side, after every finite sequence of
registry operations each channel holds one or zero ports (the table
stores an `Option`) and no port is referenced by two distinct channels;
on the gateway side, `unmapChannel` always preserves the (node, port)
uniqueness of live channels and `mapChannel` preserves it whenever the
requested (node, port) pair is not currently bound to any live channel —
unrestricted gateway `mapChannel` sequences can violate it, since spec
4.2 makes `mapChannel` fail only on a busy or out-of-range `dmxwChan`,
not on a busy (node, port) pair. -/
theorem C7_mapping_uniqueness (conflictOf : Nat → Option Nat)
    (ops : List NodeOp) (t : GwTable)
    (d dmx512 n p d' : Nat) (l : Bool) (hu : GwUnique t)
    (hfresh : ∀ e r, t e = some r → (r.nodeId, r.port) ≠ (n, p)) :
    NodeUnique (runNode conflictOf emptyNode ops) ∧
    GwUnique (mapChannel t d dmx512 n p l).1 ∧
    GwUnique (unmapChannel t d') :=
  ⟨(runNode_inv ops conflictOf emptyNode emptyNode_inv).2,
    mapChannel_preserves t d dmx512 n p l hu hfresh,
    unmapChannel_preserves t d' hu⟩

/-- Witness for C7 at a concrete operation sequence and a fresh gateway
mapping request on the empty table. -/
theorem C7_mapping_uniqueness_witness :
    NodeUnique (runNode (fun _ => none) emptyNode
      [.assign 1 5 true false, .assign 2 5 true false, .clear 1,
        .assign 2 6 true false]) ∧
    GwUnique (mapChannel emptyGw 3 100 2 1 true).1 ∧
    GwUnique (unmapChannel emptyGw 3) :=
  C7_mapping_uniqueness (fun _ => none)
    [.assign 1 5 true false, .assign 2 5 true false, .clear 1,
      .assign 2 6 true false]
    emptyGw 3 100 2 1 3 true emptyGw_unique
    (fun e r he => by simp [emptyGw] at he)

/-- Counterexample to C7 as stated: the gateway-side sequence
`mapChannel(1, 10, node 2, port 5)` then `mapChannel(2, 11, node 2,
port 5)` succeeds in full (spec 4.2's `mapChannel` only guards the
`dmxwChan`), leaving the two distinct live channels 1 and 2 bound to the
same (node, port) pair (2, 5). -/
theorem C7_counterexample :
    (runGw emptyGw [.map 1 10 2 5 false, .map 2 11 2 5 false]) 1 =
      some ⟨10, 2, 5, false, 0⟩ ∧
    (runGw emptyGw [.map 1 10 2 5 false, .map 2 11 2 5 false]) 2 =
      some ⟨11, 2, 5, false, 0⟩ ∧
    ¬ GwUnique (runGw emptyGw [.map 1 10 2 5 false, .map 2 11 2 5 false]) := by
  refine ⟨by decide, by decide, fun h => ?_⟩
  exact h 1 2 ⟨10, 2, 5, false, 0⟩ ⟨11, 2, 5, false, 0⟩ (by decide)
    (by decide) (by decide) rfl

/-- C8: starting from a reboot, every inbound command arriving before the
first `TSTCMD_INIT` handshake is answered with the reboot indicator
`OUTREBOOT`, and once the prefix contains `TSTCMD_INIT` no reply carries
that code. -/
theorem C8_reboot_handshake (s : TestSession) (pre : List TstCmd)
    (c : TstCmd) :
    ((∀ x ∈ pre, x ≠ TstCmd.TSTCMD_INIT) → c ≠ TstCmd.TSTCMD_INIT →
      replyAfter (rebootedProc s) pre c = .OUTREBOOT) ∧
    (TstCmd.TSTCMD_INIT ∈ pre →
      replyAfter (rebootedProc s) pre c ≠ .OUTREBOOT) := by
  constructor
  · intro hpre hc
    rw [replyAfter, procExec_uninit pre (rebootedProc s) rfl hpre]
    cases c
    case TSTCMD_INIT => exact absurd rfl hc
    all_goals simp [procStep, rebootedProc]
  · intro hmem
    exact procStep_initialized_reply _ c
      (procExec_after_init pre (rebootedProc s) hmem)

/-- Witness for C8: before the handshake a state command draws
`OUTREBOOT`; after the handshake it does not. -/
theorem C8_reboot_handshake_witness :
    replyAfter (rebootedProc initSession) [.TSTCMD_STATE .RUNNING]
      (.TSTCMD_TEST .DMXW .MANUAL) = .OUTREBOOT ∧
    replyAfter (rebootedProc initSession)
      [.TSTCMD_STATE .RUNNING, .TSTCMD_INIT]
      (.TSTCMD_TEST .DMXW .MANUAL) ≠ .OUTREBOOT :=
  ⟨(C8_reboot_handshake initSession [.TSTCMD_STATE .RUNNING]
      (.TSTCMD_TEST .DMXW .MANUAL)).1 (by decide) (by decide),
    (C8_reboot_handshake initSession
      [.TSTCMD_STATE .RUNNING, .TSTCMD_INIT]
      (.TSTCMD_TEST .DMXW .MANUAL)).2 (by decide)⟩

end DMXW
